import Mathlib

/-!
Verification of the lead-generation dashboard's client-side orchestration:
the contact filter engine, the selection tracker, the discovery and
validation orchestrators, and the campaign send path. Each definition is a
shallow embedding of the corresponding JavaScript function; JS arrays are
Lists, possibly-undefined fields are Options, and floating-point scores are
rationals (only their comparisons matter to the embedded code).
-/

namespace Rendline

/-- Contact record flattened from a company response (ContactManagement
fetchContacts); fields that the JS may leave undefined are Options. -/
structure Contact where
  id : Nat
  first_name : Option String
  last_name : Option String
  email : Option String
  job_title : Option String
  company_name : Option String
  company_domain : Option String
  company_trigger : Option String
  company_industry : Option String
  decision_maker_score : Option ℚ
  email_validated : Bool
  email_validation_result : Option String
  contacted : Bool
  contact_date : Option String
deriving DecidableEq

/-- Company record as returned by the companies endpoint. -/
structure Company where
  name : Option String
  domain : Option String
  trigger_type : Option String
  industry : Option String
  top_contacts : List Contact
deriving DecidableEq

/-- Flattening step of ContactManagement fetchContacts: every contact of every
company, with the denormalized company fields written onto the contact. -/
def flattenCompanies (cos : List Company) : List Contact :=
  (cos.map (fun co => co.top_contacts.map (fun c =>
    { c with company_name := co.name
             company_domain := co.domain
             company_trigger := co.trigger_type
             company_industry := co.industry }))).flatten

/-- Helper for building concrete contacts in tests of the model. -/
def mkContact (i : Nat) (em : String) (score : ℚ) : Contact :=
  { id := i, first_name := none, last_name := none, email := some em,
    job_title := none, company_name := none, company_domain := none,
    company_trigger := none, company_industry := none,
    decision_maker_score := some score, email_validated := false,
    email_validation_result := none, contacted := false, contact_date := none }

/-- The three filter inputs of ContactManagement. -/
structure Criteria where
  searchTerm : String
  triggerFilter : String
  validationFilter : String
deriving DecidableEq

/-- Leading-segment match on character lists. -/
def charsLeadMatch : List Char → List Char → Bool
  | [], _ => true
  | _ :: _, [] => false
  | a :: as, b :: bs => a == b && charsLeadMatch as bs

/-- Substring occurrence on character lists, the semantics of
String.prototype.includes. -/
def charsHasSub (needle : List Char) : List Char → Bool
  | [] => needle.isEmpty
  | c :: t => charsLeadMatch needle (c :: t) || charsHasSub needle t

/-- JS field?.toLowerCase().includes(term.toLowerCase()): false when the
field is undefined. -/
def optIncludes (field : Option String) (term : String) : Bool :=
  match field with
  | none => false
  | some s => charsHasSub term.toLower.toList s.toLower.toList

/-- Search predicate of filterContacts: case-insensitive substring match on
first_name, last_name, email or company_name. -/
def searchMatch (term : String) (c : Contact) : Bool :=
  optIncludes c.first_name term || optIncludes c.last_name term ||
  optIncludes c.email term || optIncludes c.company_name term

/-- Trigger predicate: strict equality of company_trigger with the filter
value; an undefined field never matches. -/
def triggerMatch (t : String) (c : Contact) : Bool :=
  match c.company_trigger with
  | some x => x == t
  | none => false

/-- Concrete-result predicate: strict equality of email_validation_result
with the filter value; an undefined field never matches. -/
def resultMatch (v : String) (c : Contact) : Bool :=
  match c.email_validation_result with
  | some r => r == v
  | none => false

/-- Search stage of filterContacts: a non-empty search term filters, an
empty one leaves the array alone (the JS truthiness test on searchTerm). -/
def searchStage (cr : Criteria) (l : List Contact) : List Contact :=
  if cr.searchTerm = "" then l else l.filter (searchMatch cr.searchTerm)

/-- Trigger stage of filterContacts. -/
def triggerStage (cr : Criteria) (l : List Contact) : List Contact :=
  if cr.triggerFilter = "all" then l else l.filter (triggerMatch cr.triggerFilter)

/-- Validation stage of filterContacts: the validated, unvalidated, and
concrete-result branches of the JS code. -/
def validationStage (cr : Criteria) (l : List Contact) : List Contact :=
  if cr.validationFilter = "all" then l
  else if cr.validationFilter = "validated" then l.filter (fun c => c.email_validated)
  else if cr.validationFilter = "unvalidated" then l.filter (fun c => !c.email_validated)
  else l.filter (resultMatch cr.validationFilter)

/-- The list of contacts kept by the three filter stages, before sorting. -/
def keptContacts (contacts : List Contact) (cr : Criteria) : List Contact :=
  validationStage cr (triggerStage cr (searchStage cr contacts))

/-- Sort key: decision_maker_score with a missing (or zero, both falsy in
JS) score treated as 0, from the comparator b.decision_maker_score or 0
minus a.decision_maker_score or 0. -/
def scoreKey (c : Contact) : ℚ :=
  c.decision_maker_score.getD 0

/-- One insertion step of a stable descending sort: the new element goes in
front of the first position whose key is not strictly greater. -/
def insertByScore (x : Contact) : List Contact → List Contact
  | [] => [x]
  | h :: t => if scoreKey x < scoreKey h then h :: insertByScore x t else x :: h :: t

/-- Stable descending sort by scoreKey; the semantics of the JS
Array.prototype.sort call with the score comparator (ECMAScript guarantees
a stable sort). -/
def sortByScoreDesc : List Contact → List Contact
  | [] => []
  | x :: xs => insertByScore x (sortByScoreDesc xs)

/-- True when all three criteria are no-ops, in which case the JS code never
called Array.filter and the array it sorts is the input array itself. -/
def noFilterActive (cr : Criteria) : Bool :=
  decide (cr.searchTerm = "") && decide (cr.triggerFilter = "all") &&
    decide (cr.validationFilter = "all")

/-- One run of filterContacts. First component: the value stored into
filteredContacts. Second component: the contents of the input contacts
array after the call — Array.filter allocates a fresh array but Array.sort
sorts in place, so when no filter stage ran the in-place sort reorders the
input array itself. -/
def filterContactsRun (contacts : List Contact) (cr : Criteria) :
    List Contact × List Contact :=
  let result := sortByScoreDesc (keptContacts contacts cr)
  (result, if noFilterActive cr then result else contacts)

theorem mem_insertByScore {y x : Contact} {l : List Contact} :
    y ∈ insertByScore x l ↔ y = x ∨ y ∈ l := by
  induction l with
  | nil => simp [insertByScore]
  | cons h t ih =>
    by_cases hc : scoreKey x < scoreKey h
    · simp only [insertByScore, if_pos hc, List.mem_cons, ih]
      tauto
    · simp only [insertByScore, if_neg hc, List.mem_cons]

theorem mem_sortByScoreDesc {y : Contact} {l : List Contact} :
    y ∈ sortByScoreDesc l ↔ y ∈ l := by
  induction l with
  | nil => simp [sortByScoreDesc]
  | cons x xs ih => simp [sortByScoreDesc, mem_insertByScore, ih]

theorem pairwise_insertByScore {x : Contact} {l : List Contact}
    (hl : l.Pairwise (fun a b => scoreKey b ≤ scoreKey a)) :
    (insertByScore x l).Pairwise (fun a b => scoreKey b ≤ scoreKey a) := by
  induction l with
  | nil => simp [insertByScore]
  | cons h t ih =>
    rw [List.pairwise_cons] at hl
    obtain ⟨hh, ht⟩ := hl
    by_cases hc : scoreKey x < scoreKey h
    · simp only [insertByScore, if_pos hc]
      rw [List.pairwise_cons]
      refine ⟨?_, ih ht⟩
      intro y hy
      rcases mem_insertByScore.mp hy with rfl | hyt
      · exact le_of_lt hc
      · exact hh y hyt
    · simp only [insertByScore, if_neg hc]
      rw [List.pairwise_cons]
      refine ⟨?_, List.pairwise_cons.mpr ⟨hh, ht⟩⟩
      intro y hy
      rcases List.mem_cons.mp hy with rfl | hyt
      · exact le_of_not_lt hc
      · exact le_trans (hh y hyt) (le_of_not_lt hc)

theorem pairwise_sortByScoreDesc (l : List Contact) :
    (sortByScoreDesc l).Pairwise (fun a b => scoreKey b ≤ scoreKey a) := by
  induction l with
  | nil => simp [sortByScoreDesc]
  | cons x xs ih =>
    simp only [sortByScoreDesc]
    exact pairwise_insertByScore ih

theorem filter_insertByScore (x : Contact) (l : List Contact) (q : ℚ) :
    (insertByScore x l).filter (fun c => decide (scoreKey c = q)) =
      if scoreKey x = q then x :: l.filter (fun c => decide (scoreKey c = q))
      else l.filter (fun c => decide (scoreKey c = q)) := by
  induction l with
  | nil =>
    by_cases hx : scoreKey x = q <;> simp [insertByScore, hx]
  | cons h t ih =>
    by_cases hc : scoreKey x < scoreKey h
    · simp only [insertByScore, if_pos hc]
      by_cases hx : scoreKey x = q
      · have hh : ¬ scoreKey h = q := by
          intro hq
          rw [hx, hq] at hc
          exact lt_irrefl q hc
        simp [List.filter_cons, hx, hh, ih]
      · by_cases hh : scoreKey h = q <;> simp [List.filter_cons, hx, hh, ih]
    · simp only [insertByScore, if_neg hc]
      by_cases hx : scoreKey x = q <;> simp [List.filter_cons, hx]

theorem filter_sortByScoreDesc (l : List Contact) (q : ℚ) :
    (sortByScoreDesc l).filter (fun c => decide (scoreKey c = q)) =
      l.filter (fun c => decide (scoreKey c = q)) := by
  induction l with
  | nil => rfl
  | cons x xs ih =>
    simp only [sortByScoreDesc]
    rw [filter_insertByScore]
    by_cases hx : scoreKey x = q <;> simp [List.filter_cons, hx, ih]

theorem searchStage_sublist (cr : Criteria) (l : List Contact) :
    (searchStage cr l).Sublist l := by
  unfold searchStage
  split
  · exact List.Sublist.refl l
  · exact List.filter_sublist l

theorem triggerStage_sublist (cr : Criteria) (l : List Contact) :
    (triggerStage cr l).Sublist l := by
  unfold triggerStage
  split
  · exact List.Sublist.refl l
  · exact List.filter_sublist l

theorem validationStage_sublist (cr : Criteria) (l : List Contact) :
    (validationStage cr l).Sublist l := by
  unfold validationStage
  split
  · exact List.Sublist.refl l
  · split
    · exact List.filter_sublist l
    · split
      · exact List.filter_sublist l
      · exact List.filter_sublist l

theorem keptContacts_sublist (contacts : List Contact) (cr : Criteria) :
    (keptContacts contacts cr).Sublist contacts := by
  exact ((validationStage_sublist cr _).trans
    (triggerStage_sublist cr _)).trans (searchStage_sublist cr contacts)

theorem resultMatch_eq_true {v : String} {c : Contact} :
    resultMatch v c = true ↔ c.email_validation_result = some v := by
  unfold resultMatch
  cases h : c.email_validation_result with
  | none => simp
  | some r => simp [beq_iff_eq]

/-- C5: the filtered output is always re-sorted descending by
decision_maker_score with a missing score treated as 0, and the sort is
stable: for each score value the contacts carrying it appear in the output
in exactly the order the filter stages kept them, which is a subsequence of
the input collection. -/
theorem filterContacts_sorted_and_stable (contacts : List Contact) (cr : Criteria) :
    ((filterContactsRun contacts cr).1.Pairwise
        (fun a b => scoreKey b ≤ scoreKey a)) ∧
    ∀ q : ℚ,
      ((filterContactsRun contacts cr).1.filter (fun c => decide (scoreKey c = q)) =
        (keptContacts contacts cr).filter (fun c => decide (scoreKey c = q))) ∧
      ((filterContactsRun contacts cr).1.filter
        (fun c => decide (scoreKey c = q))).Sublist contacts := by
  have h1 : (filterContactsRun contacts cr).1 =
      sortByScoreDesc (keptContacts contacts cr) := rfl
  refine ⟨?_, fun q => ⟨?_, ?_⟩⟩
  · rw [h1]
    exact pairwise_sortByScoreDesc _
  · rw [h1]
    exact filter_sortByScoreDesc _ q
  · rw [h1, filter_sortByScoreDesc]
    exact (List.filter_sublist _).trans (keptContacts_sublist contacts cr)

/-- C5 witness: the property evaluated at a concrete two-contact collection
with the no-op criteria. -/
theorem filterContacts_sorted_and_stable_witness :
    ((filterContactsRun [mkContact 11 "a@x" 0, mkContact 12 "b@x" 1]
        { searchTerm := "", triggerFilter := "all", validationFilter := "all" }).1.Pairwise
        (fun a b => scoreKey b ≤ scoreKey a)) ∧
    ∀ q : ℚ,
      ((filterContactsRun [mkContact 11 "a@x" 0, mkContact 12 "b@x" 1]
          { searchTerm := "", triggerFilter := "all", validationFilter := "all" }).1.filter
          (fun c => decide (scoreKey c = q)) =
        (keptContacts [mkContact 11 "a@x" 0, mkContact 12 "b@x" 1]
          { searchTerm := "", triggerFilter := "all", validationFilter := "all" }).filter
          (fun c => decide (scoreKey c = q))) ∧
      ((filterContactsRun [mkContact 11 "a@x" 0, mkContact 12 "b@x" 1]
          { searchTerm := "", triggerFilter := "all", validationFilter := "all" }).1.filter
          (fun c => decide (scoreKey c = q))).Sublist
        [mkContact 11 "a@x" 0, mkContact 12 "b@x" 1] :=
  filterContacts_sorted_and_stable [mkContact 11 "a@x" 0, mkContact 12 "b@x" 1]
    { searchTerm := "", triggerFilter := "all", validationFilter := "all" }

def cMut1 : Contact := mkContact 1 "a@x" 0

def cMut2 : Contact := mkContact 2 "b@x" 1

/-- C4: evaluation of filterContacts at the failing input. With both
contacts in the input, all three criteria no-ops, and the input not already
sorted descending, the in-place Array.sort runs on the input array itself:
after the call the input array is reordered, contradicting the contract
that the filter never mutates its input. -/
theorem filterContacts_noop_mutates_input :
    (filterContactsRun [cMut1, cMut2]
        { searchTerm := "", triggerFilter := "all", validationFilter := "all" }).2 =
      [cMut2, cMut1] ∧ [cMut2, cMut1] ≠ [cMut1, cMut2] := by
  constructor
  · rfl
  · decide

def cUnval : Contact :=
  { mkContact 6 "v@x" 1 with
      email_validated := false
      email_validation_result := some "valid" }

/-- C6 counterexample: a contact whose email_validation_result is valid but
whose email_validated flag is false is kept by the concrete-result filter,
so not every contact in the output has email_validated true. -/
theorem filter_concrete_mode_keeps_unvalidated :
    (filterContactsRun [cUnval]
        { searchTerm := "", triggerFilter := "all", validationFilter := "valid" }).1 =
      [cUnval] ∧ cUnval.email_validated = false := by
  constructor
  · rfl
  · rfl

/-- C6 amended: filtering with a concrete validation-result mode keeps
exactly the contacts whose email_validation_result equals that value; the
email_validated flag is not consulted by that branch. -/
theorem filter_concrete_mode_membership (contacts : List Contact) (v : String)
    (x : Contact) (hv : v = "valid" ∨ v = "invalid" ∨ v = "risky") :
    (x ∈ (filterContactsRun contacts
        { searchTerm := "", triggerFilter := "all", validationFilter := v }).1 ↔
      x ∈ contacts ∧ x.email_validation_result = some v) := by
  have hva : ¬ (v = "all") := by rcases hv with h | h | h <;> subst h <;> decide
  have hvv : ¬ (v = "validated") := by rcases hv with h | h | h <;> subst h <;> decide
  have hvu : ¬ (v = "unvalidated") := by rcases hv with h | h | h <;> subst h <;> decide
  have hk : keptContacts contacts
      { searchTerm := "", triggerFilter := "all", validationFilter := v } =
      contacts.filter (resultMatch v) := by
    unfold keptContacts validationStage triggerStage searchStage
    simp [hva, hvv, hvu]
  have h1 : (filterContactsRun contacts
      { searchTerm := "", triggerFilter := "all", validationFilter := v }).1 =
      sortByScoreDesc (contacts.filter (resultMatch v)) := by
    rw [show (filterContactsRun contacts
      { searchTerm := "", triggerFilter := "all", validationFilter := v }).1 =
      sortByScoreDesc (keptContacts contacts
        { searchTerm := "", triggerFilter := "all", validationFilter := v }) from rfl, hk]
  rw [h1, mem_sortByScoreDesc, List.mem_filter, resultMatch_eq_true]

/-- C6 witness: the amended membership property evaluated at the concrete
one-contact collection with mode valid. -/
theorem filter_concrete_mode_membership_witness :
    (cUnval ∈ (filterContactsRun [cUnval]
        { searchTerm := "", triggerFilter := "all", validationFilter := "valid" }).1 ↔
      cUnval ∈ [cUnval] ∧ cUnval.email_validation_result = some "valid") :=
  filter_concrete_mode_membership [cUnval] "valid" cUnval (Or.inl rfl)

/-- Personalized email returned by the generation endpoint. -/
structure GeneratedEmail where
  contact_id : Nat
  contact_name : Option String
  company_name : Option String
  subject : String
  body : String
  personalization_score : Option ℚ
deriving DecidableEq

/-- One item of the emails array posted to the send endpoint; to_email is
an Option because the JS join can leave the property undefined. -/
structure OutgoingEmail where
  contact_id : Nat
  to_email : Option String
  subject : String
  body : String
deriving DecidableEq

/-- The emailsToSend array built inside sendEmails: for each generated
email, the to-address is looked up by contact_id in the current contact
collection; contacts.find yields the first match and the optional chaining
yields undefined (none) when no contact matches or its email is absent. -/
def emailsToSend (ges : List GeneratedEmail) (contacts : List Contact) :
    List OutgoingEmail :=
  ges.map (fun e =>
    { contact_id := e.contact_id
      to_email := (contacts.find? (fun c => c.id == e.contact_id)).bind
        (fun c => c.email)
      subject := e.subject
      body := e.body })

/-- Component-local state of the EmailCampaigns page that sendEmails reads
and writes. -/
structure CampaignState where
  contacts : List Contact
  selectedContacts : List Nat
  generatedEmails : List GeneratedEmail
  testMode : Bool
  isSending : Bool
deriving DecidableEq

/-- Result of one sendEmails invocation: the post-call component state, the
request body if one was posted (emails array and test_mode flag), and
whether a contact re-fetch was triggered. -/
structure SendOutcome where
  state : CampaignState
  request : Option (List OutgoingEmail × Bool)
  refetched : Bool
deriving DecidableEq

/-- One run of sendEmails given the success flag of the response and, for
the live-send branch, the contact collection delivered by the triggered
re-fetch. An empty generated batch returns before any request. On a
successful live send the generated batch and the selection are cleared and
the re-fetch replaces the contacts; on a successful test send and on any
failure the state is left untouched apart from the isSending busy flag. -/
def sendEmails (s : CampaignState) (respSuccess : Bool)
    (fetched : List Contact) : SendOutcome :=
  if s.generatedEmails.length = 0 then
    { state := s, request := none, refetched := false }
  else
    let req := (emailsToSend s.generatedEmails s.contacts, s.testMode)
    if respSuccess then
      if s.testMode then
        { state := { s with isSending := false }, request := some req,
          refetched := false }
      else
        { state := { s with
              contacts := fetched
              generatedEmails := []
              selectedContacts := []
              isSending := false }
          request := some req
          refetched := true }
    else
      { state := { s with isSending := false }, request := some req,
        refetched := false }

/-- C1: a live send (testMode false) whose response reports success clears
the generated batch, clears the selection set, and triggers a contact
re-fetch whose result replaces the collection. -/
theorem send_live_success_clears_state (s : CampaignState)
    (fetched : List Contact) (hne : s.generatedEmails ≠ [])
    (hlive : s.testMode = false) :
    (sendEmails s true fetched).state.generatedEmails = [] ∧
    (sendEmails s true fetched).state.selectedContacts = [] ∧
    (sendEmails s true fetched).refetched = true ∧
    (sendEmails s true fetched).state.contacts = fetched := by
  have h0 : ¬ (s.generatedEmails.length = 0) := by
    simpa [List.length_eq_zero] using hne
  simp [sendEmails, h0, hlive]

def geLive : GeneratedEmail :=
  { contact_id := 1, contact_name := some "A", company_name := some "H",
    subject := "s", body := "b", personalization_score := some 1 }

def sLive : CampaignState :=
  { contacts := [mkContact 1 "a@x" 1], selectedContacts := [1],
    generatedEmails := [geLive], testMode := false, isSending := true }

/-- C1 witness: the live-send postcondition at a concrete state. -/
theorem send_live_success_clears_state_witness :
    (sendEmails sLive true []).state.generatedEmails = [] ∧
    (sendEmails sLive true []).state.selectedContacts = [] ∧
    (sendEmails sLive true []).refetched = true ∧
    (sendEmails sLive true []).state.contacts = [] :=
  send_live_success_clears_state sLive [] (by decide) rfl

/-- C2: a test-mode send whose response reports success leaves the
generated batch, the selection set and the contact collection untouched
and triggers no re-fetch. -/
theorem send_test_success_preserves_state (s : CampaignState)
    (fetched : List Contact) (hne : s.generatedEmails ≠ [])
    (htest : s.testMode = true) :
    (sendEmails s true fetched).state.generatedEmails = s.generatedEmails ∧
    (sendEmails s true fetched).state.selectedContacts = s.selectedContacts ∧
    (sendEmails s true fetched).state.contacts = s.contacts ∧
    (sendEmails s true fetched).refetched = false := by
  have h0 : ¬ (s.generatedEmails.length = 0) := by
    simpa [List.length_eq_zero] using hne
  simp [sendEmails, h0, htest]

def geDry : GeneratedEmail :=
  { contact_id := 2, contact_name := some "B", company_name := some "F",
    subject := "t", body := "c", personalization_score := some 1 }

def sDry : CampaignState :=
  { contacts := [mkContact 2 "b@x" 1], selectedContacts := [2],
    generatedEmails := [geDry], testMode := true, isSending := true }

/-- C2 witness: the test-mode frame condition at a concrete state. -/
theorem send_test_success_preserves_state_witness :
    (sendEmails sDry true []).state.generatedEmails = sDry.generatedEmails ∧
    (sendEmails sDry true []).state.selectedContacts = sDry.selectedContacts ∧
    (sendEmails sDry true []).state.contacts = sDry.contacts ∧
    (sendEmails sDry true []).refetched = false :=
  send_test_success_preserves_state sDry [] (by decide) rfl

def geOrphan : GeneratedEmail :=
  { contact_id := 7, contact_name := none, company_name := none,
    subject := "s", body := "b", personalization_score := none }

/-- C3 counterexample: with an empty contact collection, a generated email
whose contact_id matches no contact is still placed in the outgoing
request, carrying an absent to-address, instead of being excluded or
flagged. -/
theorem emailsToSend_unmatched_included :
    (emailsToSend [geOrphan] []).length = 1 ∧
    (emailsToSend [geOrphan] []).head? =
      some { contact_id := 7, to_email := none, subject := "s", body := "b" } := by
  constructor
  · rfl
  · rfl

/-- C3 amended: the outgoing request has one item per generated email, each
item's to-address is obtained by joining the generated email's contact_id
against the current contact collection (first matching contact's email),
and an item whose contact_id matches no contact is included with an absent
to-address rather than excluded. -/
theorem emailsToSend_join_and_unmatched (ges : List GeneratedEmail)
    (contacts : List Contact) :
    (emailsToSend ges contacts).length = ges.length ∧
    ∀ o ∈ emailsToSend ges contacts,
      (∃ e ∈ ges, o.contact_id = e.contact_id ∧ o.subject = e.subject ∧
        o.body = e.body ∧
        o.to_email = (contacts.find? (fun c => c.id == e.contact_id)).bind
          (fun c => c.email)) ∧
      ((∀ c ∈ contacts, ¬ (c.id = o.contact_id)) → o.to_email = none) := by
  constructor
  · simp [emailsToSend]
  · intro o ho
    rw [emailsToSend, List.mem_map] at ho
    obtain ⟨e, he, rfl⟩ := ho
    constructor
    · exact ⟨e, he, rfl, rfl, rfl, rfl⟩
    · intro hnone
      have hf : contacts.find? (fun c => c.id == e.contact_id) = none := by
        rw [List.find?_eq_none]
        intro c hc
        simp [hnone c hc]
      simp [hf]

/-- C3 witness: the amended join property at the concrete orphan batch. -/
theorem emailsToSend_join_and_unmatched_witness :
    (emailsToSend [geOrphan] []).length = [geOrphan].length ∧
    ∀ o ∈ emailsToSend [geOrphan] [],
      (∃ e ∈ [geOrphan], o.contact_id = e.contact_id ∧ o.subject = e.subject ∧
        o.body = e.body ∧
        o.to_email = (List.find? (fun c => c.id == e.contact_id)
          ([] : List Contact)).bind (fun c => c.email)) ∧
      ((∀ c ∈ ([] : List Contact), ¬ (c.id = o.contact_id)) →
        o.to_email = none) :=
  emailsToSend_join_and_unmatched [geOrphan] []

/-- Component-local state of the ContactManagement page. filteredContacts
is the stored derived view that the filterContacts effect keeps in sync. -/
structure MgmtState where
  contacts : List Contact
  filteredContacts : List Contact
  selectedContacts : List Nat
  searchTerm : String
  triggerFilter : String
  validationFilter : String
  validating : Bool
deriving DecidableEq

/-- The filterContacts effect: recompute the filtered view from the current
contacts and criteria, storing the result in filteredContacts; the second
component of the run accounts for the in-place sort possibly reordering
the contacts array itself. -/
def applyFilterEffect (s : MgmtState) : MgmtState :=
  let r := filterContactsRun s.contacts
    { searchTerm := s.searchTerm
      triggerFilter := s.triggerFilter
      validationFilter := s.validationFilter }
  { s with filteredContacts := r.1, contacts := r.2 }

theorem applyFilterEffect_selected (s : MgmtState) :
    (applyFilterEffect s).selectedContacts = s.selectedContacts := rfl

/-- Result of one validateSelectedContacts invocation: post-call state,
whether the validation request was posted, and whether the contact re-fetch
was triggered. -/
structure ValidateOutcome where
  state : MgmtState
  requested : Bool
  refetched : Bool
deriving DecidableEq

/-- One run of validateSelectedContacts given the response success flag
and, for the success branch, the companies delivered by the triggered
re-fetch (flattened into contacts, after which the filter effect reruns).
An empty selection returns before any request; on success the selection is
cleared and the collection re-fetched; on failure only the busy flag
changes. -/
def validateSelectedContacts (s : MgmtState) (respSuccess : Bool)
    (fetchedCompanies : List Company) : ValidateOutcome :=
  if s.selectedContacts.length = 0 then
    { state := s, requested := false, refetched := false }
  else if respSuccess then
    { state := applyFilterEffect { s with
        contacts := flattenCompanies fetchedCompanies
        selectedContacts := []
        validating := false }
      requested := true
      refetched := true }
  else
    { state := { s with validating := false }, requested := true,
      refetched := false }

/-- C8: for a non-empty selection, a successful validation response clears
the selection and triggers the contact re-fetch, while a failed response
preserves the selection and triggers no re-fetch. -/
theorem validate_selected_outcome (s : MgmtState) (cos : List Company)
    (hne : s.selectedContacts ≠ []) :
    ((validateSelectedContacts s true cos).state.selectedContacts = [] ∧
     (validateSelectedContacts s true cos).refetched = true) ∧
    ((validateSelectedContacts s false cos).state.selectedContacts =
        s.selectedContacts ∧
     (validateSelectedContacts s false cos).refetched = false) := by
  have h0 : ¬ (s.selectedContacts.length = 0) := by
    simpa [List.length_eq_zero] using hne
  refine ⟨⟨?_, ?_⟩, ?_, ?_⟩ <;>
    simp [validateSelectedContacts, h0, applyFilterEffect_selected]

def sValidate : MgmtState :=
  { contacts := [], filteredContacts := [], selectedContacts := [9],
    searchTerm := "", triggerFilter := "all", validationFilter := "all",
    validating := true }

/-- C8 witness: the validation postconditions at a concrete state. -/
theorem validate_selected_outcome_witness :
    ((validateSelectedContacts sValidate true []).state.selectedContacts = [] ∧
     (validateSelectedContacts sValidate true []).refetched = true) ∧
    ((validateSelectedContacts sValidate false []).state.selectedContacts =
        sValidate.selectedContacts ∧
     (validateSelectedContacts sValidate false []).refetched = false) :=
  validate_selected_outcome sValidate [] (by decide)

/-- The mount-time state of ContactManagement before any event. -/
def initialMgmt : MgmtState :=
  { contacts := [], filteredContacts := [], selectedContacts := [],
    searchTerm := "", triggerFilter := "all", validationFilter := "all",
    validating := false }

/-- Reachable component states: the initial state followed by any sequence
of the UI events the page exposes. Every event that changes contacts or a
criterion is followed by the filterContacts effect; per-row checkboxes only
toggle ids of currently visible contacts. -/
inductive Reachable : MgmtState → Prop where
  | init : Reachable (applyFilterEffect initialMgmt)
  | fetch_success (s : MgmtState) (cos : List Company) : Reachable s →
      Reachable (applyFilterEffect { s with contacts := flattenCompanies cos })
  | set_search (s : MgmtState) (v : String) : Reachable s →
      Reachable (applyFilterEffect { s with searchTerm := v })
  | set_trigger (s : MgmtState) (v : String) : Reachable s →
      Reachable (applyFilterEffect { s with triggerFilter := v })
  | set_validation (s : MgmtState) (v : String) : Reachable s →
      Reachable (applyFilterEffect { s with validationFilter := v })
  | select_on (s : MgmtState) (cid : Nat) : Reachable s →
      cid ∈ s.filteredContacts.map (fun c => c.id) →
      cid ∉ s.selectedContacts →
      Reachable { s with selectedContacts := s.selectedContacts ++ [cid] }
  | select_off (s : MgmtState) (cid : Nat) : Reachable s →
      Reachable { s with
        selectedContacts := s.selectedContacts.filter (fun x => x != cid) }
  | select_all_on (s : MgmtState) : Reachable s →
      Reachable { s with
        selectedContacts := s.filteredContacts.map (fun c => c.id) }
  | select_all_off (s : MgmtState) : Reachable s →
      Reachable { s with selectedContacts := [] }
  | validate_success (s : MgmtState) (cos : List Company) : Reachable s →
      s.selectedContacts ≠ [] →
      Reachable (applyFilterEffect { s with
        contacts := flattenCompanies cos
        selectedContacts := [] })
  | clear_filters (s : MgmtState) : Reachable s →
      Reachable (applyFilterEffect { s with
        searchTerm := ""
        triggerFilter := "all"
        validationFilter := "all" })

/-- The select-all checkbox state, computed on every render and never
stored: selection length equals visible length and the view is non-empty. -/
def checkedDisplay (s : MgmtState) : Bool :=
  decide (s.selectedContacts.length = s.filteredContacts.length) &&
    decide (0 < s.filteredContacts.length)

def coHiring : Company :=
  { name := some "Hco", domain := some "h.com", trigger_type := some "hiring",
    industry := none,
    top_contacts := [mkContact 1 "a@h" 1, mkContact 2 "b@h" 0] }

def coFunding : Company :=
  { name := some "Fco", domain := some "f.com", trigger_type := some "funding",
    industry := none,
    top_contacts := [mkContact 3 "c@f" 1, mkContact 4 "d@f" 0] }

def cexS1 : MgmtState :=
  applyFilterEffect { applyFilterEffect initialMgmt with
    contacts := flattenCompanies [coHiring, coFunding] }

def cexS2 : MgmtState := applyFilterEffect { cexS1 with triggerFilter := "hiring" }

def cexS3 : MgmtState :=
  { cexS2 with selectedContacts := cexS2.filteredContacts.map (fun c => c.id) }

def cexS4 : MgmtState := applyFilterEffect { cexS3 with triggerFilter := "funding" }

/-- C7 counterexample: a reachable state — fetch four contacts, filter to
the hiring view, select all, then switch the filter to the funding view —
in which the select-all control displays checked (the stored lengths
match and the view is non-empty) while the selection set differs from the
id-set of the visible view. -/
theorem checked_display_without_set_equality :
    Reachable cexS4 ∧ checkedDisplay cexS4 = true ∧
      cexS4.selectedContacts.toFinset ≠
        (cexS4.filteredContacts.map (fun c => c.id)).toFinset := by
  refine ⟨?_, by decide, by decide⟩
  exact Reachable.set_trigger cexS3 "funding"
    (Reachable.select_all_on cexS2
      (Reachable.set_trigger cexS1 "hiring"
        (Reachable.fetch_success (applyFilterEffect initialMgmt)
          [coHiring, coFunding] Reachable.init)))

/-- C7 amended: the checked display is the computed length test, so in any
state whose duplicate-free selection equals, as a set, the duplicate-free
id-set of the non-empty visible view, the control displays checked; the
converse fails after a filter change, as the counterexample shows. -/
theorem checked_of_selection_matches_view (s : MgmtState)
    (hsel : s.selectedContacts.Nodup)
    (hids : (s.filteredContacts.map (fun c => c.id)).Nodup)
    (heq : s.selectedContacts.toFinset =
      (s.filteredContacts.map (fun c => c.id)).toFinset)
    (hne : s.filteredContacts ≠ []) :
    checkedDisplay s = true := by
  have hcard : s.selectedContacts.toFinset.card =
      (s.filteredContacts.map (fun c => c.id)).toFinset.card := by rw [heq]
  rw [List.toFinset_card_of_nodup hsel, List.toFinset_card_of_nodup hids,
    List.length_map] at hcard
  have hpos : 0 < s.filteredContacts.length := List.length_pos.mpr hne
  simp [checkedDisplay, hcard, hpos]

def sChecked : MgmtState :=
  { contacts := [mkContact 5 "e@x" 1], filteredContacts := [mkContact 5 "e@x" 1],
    selectedContacts := [5], searchTerm := "", triggerFilter := "all",
    validationFilter := "all", validating := false }

/-- C7 witness: the amended direction at a concrete state whose selection
equals the visible id-set. -/
theorem checked_of_selection_matches_view_witness :
    checkedDisplay sChecked = true :=
  checked_of_selection_matches_view sChecked (by decide) (by decide)
    (by decide) (by decide)

/-- Component-local state of the LeadDiscovery page. -/
structure DiscState where
  triggerTypes : List String
  limitPerType : Int
  isDiscovering : Bool
  discoveredCompanies : List Company
deriving DecidableEq

/-- Body of the POST to the discover endpoint. -/
structure DiscRequest where
  trigger_types : List String
  limit_per_type : Int
deriving DecidableEq

/-- Response of the discover endpoint; companies and error are absent on
the other branch. -/
structure DiscResponse where
  success : Bool
  companies : Option (List Company)
  error : Option String
deriving DecidableEq

/-- Result of one discoverLeads invocation: post-call state, the request
body if one was posted, and the error message surfaced if any. -/
structure DiscOutcome where
  state : DiscState
  request : Option DiscRequest
  errorShown : Option String
deriving DecidableEq

/-- One run of discoverLeads. An empty trigger selection surfaces the
validation error and returns before any request or state change; otherwise
the request carries the current trigger types and limit, a successful
response replaces the company list wholesale, and a failed response
surfaces the server error or the generic message. -/
def discoverLeads (s : DiscState) (resp : DiscResponse) : DiscOutcome :=
  if s.triggerTypes.length = 0 then
    { state := s, request := none,
      errorShown := some "Please select at least one trigger type" }
  else
    let req : DiscRequest :=
      { trigger_types := s.triggerTypes, limit_per_type := s.limitPerType }
    if resp.success then
      { state := { s with
          discoveredCompanies := (resp.companies).getD []
          isDiscovering := false }
        request := some req
        errorShown := none }
    else
      { state := { s with isDiscovering := false }, request := some req,
        errorShown := some ((resp.error).getD "Failed to discover leads") }

/-- C9: with an empty trigger selection, discovery surfaces the validation
error, issues no request, and leaves the whole component state unchanged. -/
theorem discover_empty_triggers_rejected (s : DiscState) (resp : DiscResponse)
    (h : s.triggerTypes = []) :
    discoverLeads s resp =
      { state := s, request := none,
        errorShown := some "Please select at least one trigger type" } := by
  unfold discoverLeads
  rw [if_pos]
  rw [h]
  rfl

def sNoTriggers : DiscState :=
  { triggerTypes := [], limitPerType := 20, isDiscovering := false,
    discoveredCompanies := [coHiring] }

/-- C9 witness: the empty-selection rejection at a concrete state with a
successful response standing by. -/
theorem discover_empty_triggers_rejected_witness :
    discoverLeads sNoTriggers
        { success := true, companies := some [coFunding], error := none } =
      { state := sNoTriggers, request := none,
        errorShown := some "Please select at least one trigger type" } :=
  discover_empty_triggers_rejected sNoTriggers
    { success := true, companies := some [coFunding], error := none } rfl

def isDigitChar (c : Char) : Bool :=
  decide ('0' ≤ c) && decide (c ≤ '9')

def digitsValue : List Char → Nat → Nat
  | [], acc => acc
  | c :: t, acc => digitsValue t (acc * 10 + (c.toNat - 48))

/-- Value of the longest leading digit run; none when there is none. -/
def parseDigits (cs : List Char) : Option Nat :=
  let ds := cs.takeWhile isDigitChar
  if ds.isEmpty then none else some (digitsValue ds 0)

def skipWhitespace : List Char → List Char
  | [] => []
  | c :: t =>
    if c = ' ' ∨ c = '\t' ∨ c = '\n' ∨ c = '\r' then skipWhitespace t
    else c :: t

/-- Model of JavaScript parseInt on the limit input's value: skip leading
whitespace, read an optional sign and the longest digit run; none models
NaN. -/
def parseIntJS (s : String) : Option Int :=
  match skipWhitespace s.toList with
  | '-' :: rest => (parseDigits rest).map (fun n => -(n : Int))
  | '+' :: rest => (parseDigits rest).map (fun n => (n : Int))
  | cs => (parseDigits cs).map (fun n => (n : Int))

/-- The limit input's onChange handler, parseInt(value) or 20: NaN and 0
are falsy and replaced by the default 20; any other integer is stored
as typed. -/
def handleLimitChange (v : String) : Int :=
  match parseIntJS v with
  | none => 20
  | some n => if n = 0 then 20 else n

def sLimit : DiscState :=
  { triggerTypes := ["hiring"], limitPerType := 20, isDiscovering := false,
    discoveredCompanies := [] }

/-- C10 counterexample: typing 500 into the limit field stores 500 (the
HTML min and max attributes do not clamp typed text), and the discovery
request submits limit_per_type 500, outside the permitted range. -/
theorem limit_overrange_submitted :
    (discoverLeads { sLimit with limitPerType := handleLimitChange "500" }
        { success := true, companies := some [], error := none }).request =
      some { trigger_types := ["hiring"], limit_per_type := 500 } ∧
    ¬ ((500 : Int) ≤ 100) := by
  constructor
  · rfl
  · decide

/-- C10 amended: the submitted limit_per_type is exactly the stored value:
the default 20 when the input parses to NaN or 0, and otherwise the parsed
integer unadjusted — no clamping into the 1 to 100 range happens anywhere
on the way to the request body. -/
theorem limit_default_without_clamp (s : DiscState) (v : String)
    (resp : DiscResponse) (hne : s.triggerTypes ≠ []) :
    (discoverLeads { s with limitPerType := handleLimitChange v } resp).request =
      some { trigger_types := s.triggerTypes,
             limit_per_type := handleLimitChange v } ∧
    (handleLimitChange v = 20 ∨ parseIntJS v = some (handleLimitChange v)) := by
  have h0 : ¬ (s.triggerTypes.length = 0) := by
    simpa [List.length_eq_zero] using hne
  constructor
  · by_cases hs : resp.success <;> simp [discoverLeads, h0, hs]
  · unfold handleLimitChange
    cases hp : parseIntJS v with
    | none => exact Or.inl rfl
    | some n =>
      by_cases hn : n = 0
      · simp [hn]
      · simp [hn]

/-- C10 witness: non-numeric input is defaulted to 20 before submission at
a concrete state. -/
theorem limit_default_without_clamp_witness :
    (discoverLeads { sLimit with limitPerType := handleLimitChange "abc" }
        { success := true, companies := some [], error := none }).request =
      some { trigger_types := sLimit.triggerTypes,
             limit_per_type := handleLimitChange "abc" } ∧
    (handleLimitChange "abc" = 20 ∨
      parseIntJS "abc" = some (handleLimitChange "abc")) :=
  limit_default_without_clamp sLimit "abc"
    { success := true, companies := some [], error := none } (by decide)

end Rendline
